import Mathlib

/-!
Verification of the behavioral test-double / harness core (`mocks.go`,
package curator) against its natural-language specification.

Shallow embedding conventions:
* Go interface values and byte payloads are modelled by the inductive `MVal`.
  Sub-operations passed to `Multi` are opaque in the source (plain
  `interface{}` values); they are modelled by `Nat` identities.
* The testify mocking substrate (`mock.Mock`, `Called`, `On/Return/Once`,
  `AssertExpectations`) is modelled by `ExpectedCall` lists and
  `methodCalled`: the first expectation with the same method name,
  structurally equal arguments and a non-exhausted repetition policy is
  consumed and its canned return values handed back; no match is a hard
  test failure (a panic), modelled as `none`.
* A Go panic (unprogrammed call, exhausted expectation, substrate accessor
  type mismatch, or an unchecked type assertion failure) is modelled by a
  `none` result.  Heap mutations made before the panic (such as
  `mockConn.operations` appends) persist, so every operation returns its
  updated receiver state alongside the optional result.
* The optional diagnostic hook (`log infof`) is a `Bool` field; operations
  additionally return the list of trace lines they emitted (the Go format
  directives are abstracted to the path argument, which is all the claims
  need).
-/

namespace CuratorSpec

/-- Model of `*zk.Stat` (external library record): only the `Version` field
is ever inspected by this core, the remaining fields are immaterial. -/
structure Stat where
  version : Int
deriving DecidableEq, Repr

/-- Model of `zk.ACL` (external library record). -/
structure ACL where
  perms : Int
  scheme : String
  id : String
deriving DecidableEq, Repr

/-- Model of the Go `interface{}` values that flow through the mock tables:
programmed arguments and canned return values. `connV`, `eventsV`,
`clientV`, `ensurePathV` stand for the (unique, pointer-identified) mock
connection, event channel, client and ensure-path values; `opsListV` is a
`[]interface{}` slice of opaque multi sub-operations; `null` is the nil
interface value. -/
inductive MVal where
  | null
  | bytes (b : List Nat)
  | str (s : String)
  | boolV (b : Bool)
  | intV (n : Int)
  | dur (n : Int)
  | statV (s : Stat)
  | aclsV (l : List ACL)
  | strsV (l : List String)
  | errV (e : String)
  | opsListV (l : List Nat)
  | multiResV (l : List Int)
  | connV
  | eventsV
  | clientV
  | ensurePathV
deriving DecidableEq, Repr

/-- One programmed expectation of the mocking substrate: operation name,
argument matcher (structural equality), canned return values, repetition
policy (`0` = unlimited, `n > 0` = `n` invocations remaining, `-1` =
exhausted) and the consumption count. -/
structure ExpectedCall where
  method : String
  args : List MVal
  rets : List MVal
  repeatability : Int
  totalCalls : Nat
deriving DecidableEq, Repr

/-- Consumption step of the substrate: an exactly-once expectation becomes
exhausted, a bounded one is decremented, an unlimited one is unchanged; the
call count always increments. -/
def consume (e : ExpectedCall) : ExpectedCall :=
  { e with
    repeatability :=
      if e.repeatability = 1 then -1
      else if e.repeatability > 1 then e.repeatability - 1
      else e.repeatability,
    totalCalls := e.totalCalls + 1 }

/-- Substrate lookup (`Mock.Called`): find the first expectation with this
method name, structurally equal arguments and a non-exhausted repetition
policy, consume it, and return its canned values; `none` models the hard
test failure (panic) raised when nothing matches. -/
def methodCalled : List ExpectedCall → String → List MVal →
    Option (List MVal × List ExpectedCall)
  | [], _, _ => none
  | e :: rest, nm, a =>
    if e.method = nm ∧ e.args = a ∧ e.repeatability > -1 then
      some (e.rets, consume e :: rest)
    else
      (methodCalled rest nm a).map fun r => (r.1, e :: r.2)

/-- Substrate teardown check (`AssertExpectations`): an expectation passes
iff it was invoked at least once and has no mandatory invocations left. -/
def callSatisfied (e : ExpectedCall) : Bool :=
  e.totalCalls > 0 && e.repeatability ≤ 0

/-- All programmed expectations of one double were consumed. -/
def allSatisfied (m : List ExpectedCall) : Bool :=
  m.all callSatisfied

/-- Substrate accessor `Arguments.Get(i)`: panics (`none`) when the index is
out of range. -/
def argGet (rets : List MVal) (i : Nat) : Option MVal :=
  rets.get? i

/-- Substrate accessor `Arguments.Error(i)`: `nil` yields a nil error, an
error value is returned, anything else panics; `some none` is a nil error,
`some (some e)` an error value, `none` a panic. -/
def argError (rets : List MVal) (i : Nat) : Option (Option String) :=
  match argGet rets i with
  | some MVal.null => some none
  | some (MVal.errV e) => some (some e)
  | _ => none

/-- Substrate accessor `Arguments.String(i)`: panics unless the value is a
string. -/
def argString (rets : List MVal) (i : Nat) : Option String :=
  match argGet rets i with
  | some (MVal.str s) => some s
  | _ => none

/-- Substrate accessor `Arguments.Bool(i)`: panics unless the value is a
bool. -/
def argBool (rets : List MVal) (i : Nat) : Option Bool :=
  match argGet rets i with
  | some (MVal.boolV b) => some b
  | _ => none

/-- Checked Go type assertion to `[]byte`: zero value (nil slice) on
mismatch. -/
def asBytes : MVal → List Nat
  | MVal.bytes b => b
  | _ => []

/-- Checked Go type assertion to `*zk.Stat`: nil on mismatch. -/
def asStat : MVal → Option Stat
  | MVal.statV s => some s
  | _ => none

/-- Checked Go type assertion to `[]zk.ACL`: nil on mismatch. -/
def asAcls : MVal → List ACL
  | MVal.aclsV l => l
  | _ => []

/-- Checked Go type assertion to `[]string`: nil on mismatch. -/
def asStrs : MVal → List String
  | MVal.strsV l => l
  | _ => []

/-- Checked Go type assertion to `chan zk.Event`: `true` iff the value is
the event channel, nil channel (`false`) on mismatch. -/
def asChan : MVal → Bool
  | MVal.eventsV => true
  | _ => false

/-- Checked Go type assertion to `ZookeeperConnection`: `true` iff the
value is the mock connection, nil on mismatch. -/
def asConn : MVal → Bool
  | MVal.connV => true
  | _ => false

/-- Checked Go type assertion to `[]zk.MultiResponse`: nil on mismatch. -/
def asMultiRes : MVal → List Int
  | MVal.multiResV l => l
  | _ => []

/-- Checked Go type assertion to `EnsurePath`: `true` iff the value is the
ensure-path double, nil on mismatch. -/
def asEnsure : MVal → Bool
  | MVal.ensurePathV => true
  | _ => false

/-- The connection double (`mockConn`): the embedded substrate expectation
table, the append-only recorded multi sub-operation sequence, and the
optional diagnostic hook (`log infof`, `true` when set). -/
structure mockConn where
  mock : List ExpectedCall
  operations : List Nat
  log : Bool
deriving DecidableEq, Repr

/-- Each operation returns the updated double, the optional result (`none`
models a panic) and the emitted trace lines. -/
def mockConn.Get (c : mockConn) (path : String) :
    mockConn × Option (List Nat × Option Stat × Option String) × List String :=
  match methodCalled c.mock ("Get") [MVal.str path] with
  | none => (c, none, [])
  | some (rets, m2) =>
    match argGet rets 0, argGet rets 1, argError rets 2 with
    | some v0, some v1, some e => ({ c with mock := m2 }, some (asBytes v0, asStat v1, e), [])
    | _, _, _ => ({ c with mock := m2 }, none, [])

/-- The multi-operation batch: the sub-operations are appended to the
recorded sequence unconditionally, before the substrate lookup; the
(single) argument handed to the matcher is the whole slice. -/
def mockConn.Multi (c : mockConn) (ops : List Nat) :
    mockConn × Option (List Int × Option String) × List String :=
  let c1 := { c with operations := c.operations ++ ops }
  match methodCalled c1.mock ("Multi") [MVal.opsListV ops] with
  | none => (c1, none, [])
  | some (rets, m2) =>
    match argGet rets 0, argError rets 1 with
    | some v0, some e =>
      ({ c1 with mock := m2 }, some (asMultiRes v0, e),
        if c1.log then [("Multi(ops=") ++ toString ops ++ (")")] else [])
    | _, _ => ({ c1 with mock := m2 }, none, [])

/-- Session close: no return values. -/
def mockConn.Close (c : mockConn) :
    mockConn × Option Unit × List String :=
  match methodCalled c.mock ("Close") [] with
  | none => (c, none, [])
  | some (_, m2) => ({ c with mock := m2 }, some (), [])

/-- Authentication: single error result, no trace line. -/
def mockConn.AddAuth (c : mockConn) (scheme : String) (auth : List Nat) :
    mockConn × Option (Option String) × List String :=
  match methodCalled c.mock ("AddAuth") [MVal.str scheme, MVal.bytes auth] with
  | none => (c, none, [])
  | some (rets, m2) =>
    match argError rets 0 with
    | some e => ({ c with mock := m2 }, some e, [])
    | none => ({ c with mock := m2 }, none, [])

/-- Node creation: the created path is read through the panicking string
accessor, then the error; a trace line is emitted when the hook is set. -/
def mockConn.Create (c : mockConn) (path : String) (data : List Nat)
    (flags : Int) (acls : List ACL) :
    mockConn × Option (String × Option String) × List String :=
  match methodCalled c.mock ("Create")
      [MVal.str path, MVal.bytes data, MVal.intV flags, MVal.aclsV acls] with
  | none => (c, none, [])
  | some (rets, m2) =>
    match argString rets 0, argError rets 1 with
    | some cp, some e =>
      ({ c with mock := m2 }, some (cp, e),
        if c.log then [("Create(path=") ++ path ++ (")")] else [])
    | _, _ => ({ c with mock := m2 }, none, [])

/-- Existence check, with trace line. -/
def mockConn.Exists (c : mockConn) (path : String) :
    mockConn × Option (Bool × Option Stat × Option String) × List String :=
  match methodCalled c.mock ("Exists") [MVal.str path] with
  | none => (c, none, [])
  | some (rets, m2) =>
    match argBool rets 0, argGet rets 1, argError rets 2 with
    | some ex, some v1, some e =>
      ({ c with mock := m2 }, some (ex, asStat v1, e),
        if c.log then [("Exists(path=") ++ path ++ (")")] else [])
    | _, _, _ => ({ c with mock := m2 }, none, [])

/-- Watched existence check, with trace line. -/
def mockConn.ExistsW (c : mockConn) (path : String) :
    mockConn × Option (Bool × Option Stat × Bool × Option String) × List String :=
  match methodCalled c.mock ("ExistsW") [MVal.str path] with
  | none => (c, none, [])
  | some (rets, m2) =>
    match argBool rets 0, argGet rets 1, argGet rets 2, argError rets 3 with
    | some ex, some v1, some v2, some e =>
      ({ c with mock := m2 }, some (ex, asStat v1, asChan v2, e),
        if c.log then [("ExistsW(path=") ++ path ++ (")")] else [])
    | _, _, _, _ => ({ c with mock := m2 }, none, [])

/-- Version-checked delete, with trace line. -/
def mockConn.Delete (c : mockConn) (path : String) (version : Int) :
    mockConn × Option (Option String) × List String :=
  match methodCalled c.mock ("Delete") [MVal.str path, MVal.intV version] with
  | none => (c, none, [])
  | some (rets, m2) =>
    match argError rets 0 with
    | some e =>
      ({ c with mock := m2 }, some e,
        if c.log then [("Delete(path=") ++ path ++ (")")] else [])
    | none => ({ c with mock := m2 }, none, [])

/-- Watched read: data, stat, watch channel, error; no trace line. -/
def mockConn.GetW (c : mockConn) (path : String) :
    mockConn × Option (List Nat × Option Stat × Bool × Option String) × List String :=
  match methodCalled c.mock ("GetW") [MVal.str path] with
  | none => (c, none, [])
  | some (rets, m2) =>
    match argGet rets 0, argGet rets 1, argGet rets 2, argError rets 3 with
    | some v0, some v1, some v2, some e =>
      ({ c with mock := m2 }, some (asBytes v0, asStat v1, asChan v2, e), [])
    | _, _, _, _ => ({ c with mock := m2 }, none, [])

/-- Version-checked write; no trace line. -/
def mockConn.Set (c : mockConn) (path : String) (data : List Nat) (version : Int) :
    mockConn × Option (Option Stat × Option String) × List String :=
  match methodCalled c.mock ("Set") [MVal.str path, MVal.bytes data, MVal.intV version] with
  | none => (c, none, [])
  | some (rets, m2) =>
    match argGet rets 0, argError rets 1 with
    | some v0, some e => ({ c with mock := m2 }, some (asStat v0, e), [])
    | _, _ => ({ c with mock := m2 }, none, [])

/-- Child listing, with trace line. -/
def mockConn.Children (c : mockConn) (path : String) :
    mockConn × Option (List String × Option Stat × Option String) × List String :=
  match methodCalled c.mock ("Children") [MVal.str path] with
  | none => (c, none, [])
  | some (rets, m2) =>
    match argGet rets 0, argGet rets 1, argError rets 2 with
    | some v0, some v1, some e =>
      ({ c with mock := m2 }, some (asStrs v0, asStat v1, e),
        if c.log then [("Children(path=") ++ path ++ (")")] else [])
    | _, _, _ => ({ c with mock := m2 }, none, [])

/-- Watched child listing, with trace line. -/
def mockConn.ChildrenW (c : mockConn) (path : String) :
    mockConn × Option (List String × Option Stat × Bool × Option String) × List String :=
  match methodCalled c.mock ("ChildrenW") [MVal.str path] with
  | none => (c, none, [])
  | some (rets, m2) =>
    match argGet rets 0, argGet rets 1, argGet rets 2, argError rets 3 with
    | some v0, some v1, some v2, some e =>
      ({ c with mock := m2 }, some (asStrs v0, asStat v1, asChan v2, e),
        if c.log then [("ChildrenW(path=") ++ path ++ (")")] else [])
    | _, _, _, _ => ({ c with mock := m2 }, none, [])

/-- ACL read: the ACL list is extracted by a checked assertion (nil on
mismatch); no trace line. -/
def mockConn.GetACL (c : mockConn) (path : String) :
    mockConn × Option (List ACL × Option Stat × Option String) × List String :=
  match methodCalled c.mock ("GetACL") [MVal.str path] with
  | none => (c, none, [])
  | some (rets, m2) =>
    match argGet rets 0, argGet rets 1, argError rets 2 with
    | some v0, some v1, some e =>
      ({ c with mock := m2 }, some (asAcls v0, asStat v1, e), [])
    | _, _, _ => ({ c with mock := m2 }, none, [])

/-- ACL write; no trace line. -/
def mockConn.SetACL (c : mockConn) (path : String) (acls : List ACL) (version : Int) :
    mockConn × Option (Option Stat × Option String) × List String :=
  match methodCalled c.mock ("SetACL") [MVal.str path, MVal.aclsV acls, MVal.intV version] with
  | none => (c, none, [])
  | some (rets, m2) =>
    match argGet rets 0, argError rets 1 with
    | some v0, some e => ({ c with mock := m2 }, some (asStat v0, e), [])
    | _, _ => ({ c with mock := m2 }, none, [])

/-- Sync: path read through the panicking string accessor; no trace line. -/
def mockConn.Sync (c : mockConn) (path : String) :
    mockConn × Option (String × Option String) × List String :=
  match methodCalled c.mock ("Sync") [MVal.str path] with
  | none => (c, none, [])
  | some (rets, m2) =>
    match argString rets 0, argError rets 1 with
    | some p, some e => ({ c with mock := m2 }, some (p, e), [])
    | _, _ => ({ c with mock := m2 }, none, [])

/-- The dialer double (`mockZookeeperDialer`). -/
structure mockZookeeperDialer where
  mock : List ExpectedCall
  log : Bool
deriving DecidableEq, Repr

/-- Session establishment: connection and event channel extracted by
checked assertions, error through the accessor; trace line when the hook is
set. -/
def mockZookeeperDialer.Dial (d : mockZookeeperDialer) (connString : String)
    (sessionTimeout : Int) (canBeReadOnly : Bool) :
    mockZookeeperDialer × Option (Bool × Bool × Option String) × List String :=
  match methodCalled d.mock ("Dial")
      [MVal.str connString, MVal.dur sessionTimeout, MVal.boolV canBeReadOnly] with
  | none => (d, none, [])
  | some (rets, m2) =>
    match argGet rets 0, argGet rets 1, argError rets 2 with
    | some v0, some v1, some e =>
      ({ d with mock := m2 }, some (asConn v0, asChan v1, e),
        if d.log then [("Dial(connectString=") ++ connString ++ (")")] else [])
    | _, _, _ => ({ d with mock := m2 }, none, [])

/-- The compression-provider double (`mockCompressionProvider`). -/
structure mockCompressionProvider where
  mock : List ExpectedCall
  log : Bool
deriving DecidableEq, Repr

/-- Payload compression: checked assertion on the byte result. -/
def mockCompressionProvider.Compress (p : mockCompressionProvider)
    (path : String) (data : List Nat) :
    mockCompressionProvider × Option (List Nat × Option String) × List String :=
  match methodCalled p.mock ("Compress") [MVal.str path, MVal.bytes data] with
  | none => (p, none, [])
  | some (rets, m2) =>
    match argGet rets 0, argError rets 1 with
    | some v0, some e =>
      ({ p with mock := m2 }, some (asBytes v0, e),
        if p.log then [("Compress(path=") ++ path ++ (")")] else [])
    | _, _ => ({ p with mock := m2 }, none, [])

/-- Payload decompression: checked assertion on the byte result. -/
def mockCompressionProvider.Decompress (p : mockCompressionProvider)
    (path : String) (compressedData : List Nat) :
    mockCompressionProvider × Option (List Nat × Option String) × List String :=
  match methodCalled p.mock ("Decompress") [MVal.str path, MVal.bytes compressedData] with
  | none => (p, none, [])
  | some (rets, m2) =>
    match argGet rets 0, argError rets 1 with
    | some v0, some e =>
      ({ p with mock := m2 }, some (asBytes v0, e),
        if p.log then [("Decompress(path=") ++ path ++ (")")] else [])
    | _, _ => ({ p with mock := m2 }, none, [])

/-- The ACL-provider double (`mockACLProvider`): no diagnostic hook. -/
structure mockACLProvider where
  mock : List ExpectedCall
deriving DecidableEq, Repr

/-- Default ACL: the programmed value is extracted by an UNCHECKED type
assertion, so a mistyped value panics (`none`) instead of yielding nil. -/
def mockACLProvider.GetDefaultAcl (p : mockACLProvider) :
    mockACLProvider × Option (List ACL) :=
  match methodCalled p.mock ("GetDefaultAcl") [] with
  | none => (p, none)
  | some (rets, m2) =>
    match argGet rets 0 with
    | some (MVal.aclsV l) => ({ mock := m2 }, some l)
    | _ => ({ mock := m2 }, none)

/-- Per-path ACL: same unchecked assertion as `GetDefaultAcl`. -/
def mockACLProvider.GetAclForPath (p : mockACLProvider) (path : String) :
    mockACLProvider × Option (List ACL) :=
  match methodCalled p.mock ("GetAclForPath") [MVal.str path] with
  | none => (p, none)
  | some (rets, m2) =>
    match argGet rets 0 with
    | some (MVal.aclsV l) => ({ mock := m2 }, some l)
    | _ => ({ mock := m2 }, none)

/-- The ensure-path double (`mockEnsurePath`). -/
structure mockEnsurePath where
  mock : List ExpectedCall
  log : Bool
deriving DecidableEq, Repr

/-- Path-existence guarantee against the (opaque) client handle. -/
def mockEnsurePath.Ensure (e : mockEnsurePath) :
    mockEnsurePath × Option (Option String) × List String :=
  match methodCalled e.mock ("Ensure") [MVal.clientV] with
  | none => (e, none, [])
  | some (rets, m2) =>
    match argError rets 0 with
    | some er =>
      ({ e with mock := m2 }, some er,
        if e.log then [("Ensure(client)")] else [])
    | none => ({ e with mock := m2 }, none, [])

/-- The all-but-last-segment variant: checked assertion on the returned
ensure-path value. -/
def mockEnsurePath.ExcludingLast (e : mockEnsurePath) :
    mockEnsurePath × Option Bool × List String :=
  match methodCalled e.mock ("ExcludingLast") [] with
  | none => (e, none, [])
  | some (rets, m2) =>
    match argGet rets 0 with
    | some v0 =>
      ({ e with mock := m2 }, some (asEnsure v0),
        if e.log then [("ExcludingLast()")] else [])
    | none => ({ e with mock := m2 }, none, [])

/-- The low-level ensure-path helper double (`mockEnsurePathHelper`). -/
structure mockEnsurePathHelper where
  mock : List ExpectedCall
  log : Bool
deriving DecidableEq, Repr

/-- Path-parameterized ensure. -/
def mockEnsurePathHelper.Ensure (h : mockEnsurePathHelper) (path : String)
    (makeLastNode : Bool) :
    mockEnsurePathHelper × Option (Option String) × List String :=
  match methodCalled h.mock ("Ensure") [MVal.clientV, MVal.str path, MVal.boolV makeLastNode] with
  | none => (h, none, [])
  | some (rets, m2) =>
    match argError rets 0 with
    | some er =>
      ({ h with mock := m2 }, some er,
        if h.log then [("Ensure(path=") ++ path ++ (")")] else [])
    | none => ({ h with mock := m2 }, none, [])

/-- The Go types a callback parameter can have, as compared by the
resolution switch of `mockZookeeperClient.Test`; `other` covers every type
outside those compared against (its payload is the printed type name). -/
inductive GoType where
  | builderPtr
  | frameworkIface
  | connIface
  | mockConnPtr
  | dialerIface
  | mockDialerPtr
  | compressIface
  | mockCompressPtr
  | eventsChan
  | wgPtr
  | other (name : String)
deriving DecidableEq, Repr

/-- Printed form of a parameter type, as interpolated into the unknown-arg
failure message. -/
def typeName : GoType → String
  | GoType.builderPtr => "*curator.CuratorFrameworkBuilder"
  | GoType.frameworkIface => "curator.CuratorFramework"
  | GoType.connIface => "curator.ZookeeperConnection"
  | GoType.mockConnPtr => "*curator.mockConn"
  | GoType.dialerIface => "curator.ZookeeperDialer"
  | GoType.mockDialerPtr => "*curator.mockZookeeperDialer"
  | GoType.compressIface => "curator.CompressionProvider"
  | GoType.mockCompressPtr => "*curator.mockCompressionProvider"
  | GoType.eventsChan => "chan zk.Event"
  | GoType.wgPtr => "*sync.WaitGroup"
  | GoType.other s => s

/-- The argument value injected for a resolved parameter slot. -/
inductive InjectedArg where
  | builderArg
  | clientArg
  | connArg
  | dialerArg
  | compressArg
  | eventsArg
  | wgArg
deriving DecidableEq, Repr

/-- The case list of the resolution switch, in source order, each case with
its label list exactly as written.  The compression case (source line 410)
lists the `ZookeeperDialer` interface type again, followed by the concrete
compression double pointer type. -/
def switchCases : List (List GoType × InjectedArg) :=
  [([GoType.builderPtr], InjectedArg.builderArg),
   ([GoType.frameworkIface], InjectedArg.clientArg),
   ([GoType.connIface, GoType.mockConnPtr], InjectedArg.connArg),
   ([GoType.dialerIface, GoType.mockDialerPtr], InjectedArg.dialerArg),
   ([GoType.dialerIface, GoType.mockCompressPtr], InjectedArg.compressArg),
   ([GoType.eventsChan], InjectedArg.eventsArg),
   ([GoType.wgPtr], InjectedArg.wgArg)]

/-- A Go switch case matches when the scrutinized type equals one of its
labels. -/
def caseMatches (t : GoType) : List GoType → Bool
  | [] => false
  | l :: ls => if t = l then true else caseMatches t ls

/-- Go switch evaluation: the first case whose label list matches wins. -/
def firstMatch (t : GoType) : List (List GoType × InjectedArg) → Option InjectedArg
  | [] => none
  | c :: cs => if caseMatches t c.1 then some c.2 else firstMatch t cs

/-- One parameter slot of the resolution loop: the injected value for a
recognized type, `none` for the default branch (slot left as a zero
`reflect.Value`, failure reported). -/
def resolveArgType (t : GoType) : Option InjectedArg :=
  firstMatch t switchCases

/-- The unknown-argument failure message (`t.Errorf` in the default
branch). -/
def unknownArgMsg (t : GoType) : String :=
  ("unknown arg type: ") ++ typeName t

/-- Number of `wg.Add(1)` registrations performed by the resolution loop:
one per parameter resolving to the completion-signal handle. -/
def wgAddCount (params : List GoType) : Nat :=
  params.countP fun t => resolveArgType t == some InjectedArg.wgArg

/-- The `waiting` flag set by the resolution loop. -/
def waitingFlag (params : List GoType) : Bool :=
  params.any fun t => resolveArgType t == some InjectedArg.wgArg

/-- Whether the callback body runs: `reflect.Value.Call` panics on any zero
(unassigned) argument slot before invoking the function, so the callback is
invoked iff every declared parameter resolved. -/
def callbackIsInvoked (params : List GoType) : Bool :=
  params.all fun t => (resolveArgType t).isSome

/-- Model of the ensemble/address resolver (`fixedEnsembleProvider`).
Modelled from the spec: the code of this collaborator is outside this
file; the spec fixes it to a constant address string returned verbatim. -/
structure fixedEnsembleProvider where
  connectString : String
deriving DecidableEq, Repr

/-- Modelled from the spec: the resolver's connect string is its fixed
address string. -/
def fixedEnsembleProvider.ConnectionString (p : fixedEnsembleProvider) : String :=
  p.connectString

/-- The configuration aggregate fields the harness reads (dialer, retry
policy and default payload are opaque to every claim and omitted). -/
structure CuratorFrameworkBuilder where
  ensembleProvider : fixedEnsembleProvider
  canBeReadOnly : Bool
  namespaceField : String
deriving DecidableEq, Repr

/-- The configuration built by `newMockZookeeperClient`. -/
def newMockClientBuilder : CuratorFrameworkBuilder :=
  { ensembleProvider := { connectString := "connectString" },
    canBeReadOnly := false,
    namespaceField := "" }

/-- Modelled from the spec: the harness's fixed default timeout constant
(`DEFAULT_CONNECTION_TIMEOUT`, defined outside this file); its concrete
value is immaterial to every claim, only that it is one fixed value. -/
def DEFAULT_CONNECTION_TIMEOUT : Int := 15000000000

/-- The argument triple the harness programs the dial expectation with:
the resolver's connect string, the fixed default timeout, and the
configuration's read-only flag. -/
def dialCallArgs : List MVal :=
  [MVal.str (newMockClientBuilder.ensembleProvider.ConnectionString),
   MVal.dur DEFAULT_CONNECTION_TIMEOUT,
   MVal.boolV newMockClientBuilder.canBeReadOnly]

/-- The single dial expectation programmed per harness run
(`.Return(c.conn, c.events, nil).Once()`). -/
def dialExpectation : ExpectedCall :=
  { method := "Dial", args := dialCallArgs,
    rets := [MVal.connV, MVal.eventsV, MVal.null],
    repeatability := 1, totalCalls := 0 }

/-- The single close expectation programmed per harness run
(`.Return().Once()`). -/
def closeExpectation : ExpectedCall :=
  { method := "Close", args := [], rets := [], repeatability := 1, totalCalls := 0 }

/-- Observable steps of one harness run, in order of occurrence. -/
inductive HEvent where
  | buildClient
  | programDial
  | dialCall
  | wgAdd
  | errorUnknownType (msg : String)
  | callbackInvoked
  | callbackPanic
  | wgWait
  | programClose
  | connCloseCall
  | clientCloseDone
  | closeEvents
  | assertExpectations
deriving DecidableEq, Repr

/-- The trace events emitted by the resolution loop, in parameter order:
a `wgAdd` for each completion-signal parameter, an unknown-type failure for
each unrecognized parameter, nothing for the other recognized ones. -/
def resolveEvents (params : List GoType) : List HEvent :=
  params.filterMap fun t =>
    match resolveArgType t with
    | some InjectedArg.wgArg => some HEvent.wgAdd
    | some _ => none
    | none => some (HEvent.errorUnknownType (unknownArgMsg t))

/-- Events preceding the callback resolution: build the client (Modelled
from the spec: `Build` performs no dial), program the dial expectation,
then `client.Start()` (Modelled from the spec: start performs exactly one
dial with the parameters the configuration dictates, which the programmed
expectation matches). -/
def preTrace : List HEvent :=
  [HEvent.buildClient, HEvent.programDial, HEvent.dialCall]

/-- Teardown events: program the close expectation, `client.Close()`
(Modelled from the spec: close invokes the connection double's `Close`
exactly once), close the event channel, assert all expectations. -/
def postTrace : List HEvent :=
  [HEvent.programClose, HEvent.connCloseCall, HEvent.clientCloseDone,
   HEvent.closeEvents, HEvent.assertExpectations]

/-- The observable outcome of one harness run: its event trace, the final
expectation tables of the dialer and connection doubles, whether the event
channel was closed, and whether the run reached normal completion (rather
than aborting in a panic). -/
structure TestOutcome where
  trace : List HEvent
  dialer : List ExpectedCall
  conn : mockConn
  eventsClosed : Bool
  completed : Bool
deriving DecidableEq, Repr

/-- One execution of `mockZookeeperClient.Test`, driven by the parameter
type list of the supplied callback.  The callback body itself is abstracted
to its invocation event: what it does with the injected handles is outside
this model (the harness's own actions are what the claims quantify over).
Steps, in source order: set the diagnostic hooks, build the client, program
the dial expectation once, start the client (consuming the dial via the
dialer double), resolve the parameter list (registering one pending
wait-group unit per completion-signal parameter and reporting each unknown
type), invoke the callback (a panic aborts the run when any slot was left
unassigned), wait on the wait group if requested, program the close
expectation once, close the client (consuming the close via the connection
double), close the event channel, and assert all expectations. -/
def runTest (params : List GoType) : TestOutcome :=
  let conn0 : mockConn := { mock := [], operations := [], log := true }
  let dialerStart : mockZookeeperDialer := { mock := [dialExpectation], log := true }
  let startStep := dialerStart.Dial
    (newMockClientBuilder.ensembleProvider.ConnectionString)
    DEFAULT_CONNECTION_TIMEOUT newMockClientBuilder.canBeReadOnly
  if (startStep.2.1).isSome then
    if callbackIsInvoked params then
      let connProg : mockConn := { conn0 with mock := conn0.mock ++ [closeExpectation] }
      let closeStep := connProg.Close
      if (closeStep.2.1).isSome then
        { trace := preTrace ++ resolveEvents params ++ [HEvent.callbackInvoked]
            ++ (if waitingFlag params then [HEvent.wgWait] else []) ++ postTrace,
          dialer := startStep.1.mock, conn := closeStep.1,
          eventsClosed := true, completed := true }
      else
        { trace := preTrace ++ resolveEvents params ++ [HEvent.callbackInvoked]
            ++ (if waitingFlag params then [HEvent.wgWait] else [])
            ++ [HEvent.programClose],
          dialer := startStep.1.mock, conn := closeStep.1,
          eventsClosed := false, completed := false }
    else
      { trace := preTrace ++ resolveEvents params ++ [HEvent.callbackPanic],
        dialer := startStep.1.mock, conn := conn0,
        eventsClosed := false, completed := false }
  else
    { trace := [HEvent.buildClient, HEvent.programDial],
      dialer := startStep.1.mock, conn := conn0,
      eventsClosed := false, completed := false }

/-- The dialer table after the run: the single dial expectation, consumed
exactly once. -/
def dialerAfterRun : List ExpectedCall := [consume dialExpectation]

/-- The connection double after a completed run: the single close
expectation, consumed exactly once, no recorded operations. -/
def connAfterRun : mockConn :=
  { mock := [consume closeExpectation], operations := [], log := true }

/-- Temporal ordering on a run trace: every occurrence of `a` strictly
precedes every occurrence of `b`. -/
def eventBeforeB (l : List HEvent) (a b : HEvent) : Bool :=
  (List.range l.length).all fun i =>
    (List.range l.length).all fun j =>
      !((l[i]? == some a) && (l[j]? == some b)) || decide (i < j)

/-- The behaviorally relevant part of a connection-double call: the
resulting expectation table, the recorded-operation sequence, and the
returned values; only the emitted trace lines are dropped. -/
def obsConn {R : Type} (r : mockConn × Option R × List String) :
    List ExpectedCall × List Nat × Option R :=
  (r.1.mock, r.1.operations, r.2.1)

/-- A sequence of multi-operation batches, folded through the connection
double (whatever each batch's stubbed outcome is). -/
def runMultiBatches (c : mockConn) (batches : List (List Nat)) : mockConn :=
  batches.foldl (fun s ops => (mockConn.Multi s ops).1) c

/-- Discriminator for programmed values of ACL-list type. -/
def isAclsVal : MVal → Bool
  | MVal.aclsV _ => true
  | _ => false

/-- Discriminator for the connection value. -/
def isConnVal : MVal → Bool
  | MVal.connV => true
  | _ => false

/-- Discriminator for byte-slice values. -/
def isBytesVal : MVal → Bool
  | MVal.bytes _ => true
  | _ => false

/-- Discriminator for the ensure-path value. -/
def isEnsureVal : MVal → Bool
  | MVal.ensurePathV => true
  | _ => false

/-- Normal form of a harness run: the start-up dial always succeeds (the
expectation was just programmed to match), so the run is determined by
whether every callback parameter resolved. -/
theorem runTest_eq (params : List GoType) :
    runTest params =
      if callbackIsInvoked params then
        { trace := preTrace ++ resolveEvents params ++ [HEvent.callbackInvoked]
            ++ (if waitingFlag params then [HEvent.wgWait] else []) ++ postTrace,
          dialer := dialerAfterRun, conn := connAfterRun,
          eventsClosed := true, completed := true }
      else
        { trace := preTrace ++ resolveEvents params ++ [HEvent.callbackPanic],
          dialer := dialerAfterRun, conn := { mock := [], operations := [], log := true },
          eventsClosed := false, completed := false } := rfl

/-- The run trace, split on whether the callback was invoked. -/
theorem runTest_trace (params : List GoType) :
    (runTest params).trace =
      preTrace ++ resolveEvents params ++
        (if callbackIsInvoked params then
          [HEvent.callbackInvoked]
            ++ (if waitingFlag params then [HEvent.wgWait] else []) ++ postTrace
         else [HEvent.callbackPanic]) := by
  rw [runTest_eq]
  cases h : callbackIsInvoked params <;> simp [h, List.append_assoc]

/-- Every event emitted by the resolution loop is a wait-group
registration or an unknown-type failure. -/
theorem mem_resolveEvents {params : List GoType} {e : HEvent}
    (he : e ∈ resolveEvents params) :
    e = HEvent.wgAdd ∨ ∃ s, e = HEvent.errorUnknownType s := by
  rw [resolveEvents, List.mem_filterMap] at he
  obtain ⟨t, _, ht⟩ := he
  cases h : resolveArgType t with
  | none =>
    rw [h] at ht
    exact Or.inr ⟨unknownArgMsg t, (Option.some_inj.mp ht).symm⟩
  | some a =>
    rw [h] at ht
    cases a <;> simp only [] at ht <;>
      first
        | exact Or.inl (Option.some_inj.mp ht).symm
        | cases ht

/-- No other event occurs inside the resolution segment. -/
theorem not_mem_resolveEvents {params : List GoType} {e : HEvent}
    (h1 : e ≠ HEvent.wgAdd) (h2 : ∀ s, e ≠ HEvent.errorUnknownType s) :
    e ∉ resolveEvents params := by
  intro he
  rcases mem_resolveEvents he with h | ⟨s, h⟩
  · exact h1 h
  · exact h2 s h

/-- Count form of `not_mem_resolveEvents`. -/
theorem count_resolveEvents_of_ne (params : List GoType) (e : HEvent)
    (h1 : e ≠ HEvent.wgAdd) (h2 : ∀ s, e ≠ HEvent.errorUnknownType s) :
    (resolveEvents params).count e = 0 :=
  List.count_eq_zero.mpr (not_mem_resolveEvents h1 h2)

/-- The resolution loop emits exactly one wait-group registration per
completion-signal parameter. -/
theorem count_wgAdd_resolveEvents (params : List GoType) :
    (resolveEvents params).count HEvent.wgAdd = wgAddCount params := by
  induction params with
  | nil => rfl
  | cons t ts ih =>
    rw [resolveEvents, List.filterMap_cons, wgAddCount, List.countP_cons]
    rw [resolveEvents] at ih
    rw [wgAddCount] at ih
    cases h : resolveArgType t with
    | none => simp [h, ih]
    | some a => cases a <;> simp [h, ih]

/-- Ordering witness: when a trace splits as `xs ++ ys` with every `a` in
`xs` and every `b` in `ys`, all occurrences of `a` precede all occurrences
of `b`. -/
theorem eventBeforeB_split (xs ys : List HEvent) (a b : HEvent)
    (ha : a ∉ ys) (hb : b ∉ xs) :
    eventBeforeB (xs ++ ys) a b = true := by
  rw [eventBeforeB, List.all_eq_true]
  intro i _
  rw [List.all_eq_true]
  intro j _
  by_cases hia : (xs ++ ys)[i]? = some a
  · by_cases hjb : (xs ++ ys)[j]? = some b
    · have hi2 : i < xs.length := by
        by_contra hge
        push_neg at hge
        rw [List.getElem?_append_right hge] at hia
        exact ha (List.getElem?_mem hia)
      have hj2 : xs.length ≤ j := by
        by_contra hlt
        push_neg at hlt
        rw [List.getElem?_append_left hlt] at hjb
        exact hb (List.getElem?_mem hjb)
      simp [Nat.lt_of_lt_of_le hi2 hj2]
    · simp [hjb]
  · simp [hia]

/-- Everything in the optional wait segment is the wait event. -/
theorem mem_wgOptList {b : Bool} {e : HEvent}
    (h : e ∈ (if b then [HEvent.wgWait] else [])) : e = HEvent.wgWait := by
  cases b <;> simp at h
  exact h

/-- Everything after the resolution segment is the callback invocation,
the wait, a teardown event, or the aborting panic. -/
theorem mem_branchList {params : List GoType} {e : HEvent}
    (h : e ∈ (if callbackIsInvoked params then
        [HEvent.callbackInvoked]
          ++ (if waitingFlag params then [HEvent.wgWait] else []) ++ postTrace
      else [HEvent.callbackPanic])) :
    e = HEvent.callbackInvoked ∨ e = HEvent.wgWait
      ∨ e ∈ postTrace ∨ e = HEvent.callbackPanic := by
  cases hc : callbackIsInvoked params with
  | false =>
    simp [hc] at h
    exact Or.inr (Or.inr (Or.inr h))
  | true =>
    simp only [hc, if_true] at h
    rcases List.mem_append.mp h with h | h
    · rcases List.mem_append.mp h with h | h
      · simp at h
        exact Or.inl h
      · exact Or.inr (Or.inl (mem_wgOptList h))
    · exact Or.inr (Or.inr (Or.inl h))

theorem AddAuth_obs (c : mockConn) (b : Bool) (s : String) (a : List Nat) :
    obsConn (mockConn.AddAuth { c with log := b } s a) = obsConn (mockConn.AddAuth c s a) ∧
    (mockConn.AddAuth c s a).1.operations = c.operations := by
  refine ⟨?_, ?_⟩ <;> (unfold mockConn.AddAuth; try dsimp only) <;> (repeat' split) <;> rfl

theorem Close_obs (c : mockConn) (b : Bool) :
    obsConn (mockConn.Close { c with log := b }) = obsConn (mockConn.Close c) ∧
    (mockConn.Close c).1.operations = c.operations := by
  refine ⟨?_, ?_⟩ <;> (unfold mockConn.Close; try dsimp only) <;> (repeat' split) <;> rfl

theorem Create_obs (c : mockConn) (b : Bool) (p : String) (d : List Nat)
    (f : Int) (a : List ACL) :
    obsConn (mockConn.Create { c with log := b } p d f a) = obsConn (mockConn.Create c p d f a) ∧
    (mockConn.Create c p d f a).1.operations = c.operations := by
  refine ⟨?_, ?_⟩ <;> (unfold mockConn.Create; try dsimp only) <;> (repeat' split) <;> rfl

theorem Exists_obs (c : mockConn) (b : Bool) (p : String) :
    obsConn (mockConn.Exists { c with log := b } p) = obsConn (mockConn.Exists c p) ∧
    (mockConn.Exists c p).1.operations = c.operations := by
  refine ⟨?_, ?_⟩ <;> (unfold mockConn.Exists; try dsimp only) <;> (repeat' split) <;> rfl

theorem ExistsW_obs (c : mockConn) (b : Bool) (p : String) :
    obsConn (mockConn.ExistsW { c with log := b } p) = obsConn (mockConn.ExistsW c p) ∧
    (mockConn.ExistsW c p).1.operations = c.operations := by
  refine ⟨?_, ?_⟩ <;> (unfold mockConn.ExistsW; try dsimp only) <;> (repeat' split) <;> rfl

theorem Delete_obs (c : mockConn) (b : Bool) (p : String) (v : Int) :
    obsConn (mockConn.Delete { c with log := b } p v) = obsConn (mockConn.Delete c p v) ∧
    (mockConn.Delete c p v).1.operations = c.operations := by
  refine ⟨?_, ?_⟩ <;> (unfold mockConn.Delete; try dsimp only) <;> (repeat' split) <;> rfl

theorem Get_obs (c : mockConn) (b : Bool) (p : String) :
    obsConn (mockConn.Get { c with log := b } p) = obsConn (mockConn.Get c p) ∧
    (mockConn.Get c p).1.operations = c.operations := by
  refine ⟨?_, ?_⟩ <;> (unfold mockConn.Get; try dsimp only) <;> (repeat' split) <;> rfl

theorem GetW_obs (c : mockConn) (b : Bool) (p : String) :
    obsConn (mockConn.GetW { c with log := b } p) = obsConn (mockConn.GetW c p) ∧
    (mockConn.GetW c p).1.operations = c.operations := by
  refine ⟨?_, ?_⟩ <;> (unfold mockConn.GetW; try dsimp only) <;> (repeat' split) <;> rfl

theorem Set_obs (c : mockConn) (b : Bool) (p : String) (d : List Nat) (v : Int) :
    obsConn (mockConn.Set { c with log := b } p d v) = obsConn (mockConn.Set c p d v) ∧
    (mockConn.Set c p d v).1.operations = c.operations := by
  refine ⟨?_, ?_⟩ <;> (unfold mockConn.Set; try dsimp only) <;> (repeat' split) <;> rfl

theorem Children_obs (c : mockConn) (b : Bool) (p : String) :
    obsConn (mockConn.Children { c with log := b } p) = obsConn (mockConn.Children c p) ∧
    (mockConn.Children c p).1.operations = c.operations := by
  refine ⟨?_, ?_⟩ <;> (unfold mockConn.Children; try dsimp only) <;> (repeat' split) <;> rfl

theorem ChildrenW_obs (c : mockConn) (b : Bool) (p : String) :
    obsConn (mockConn.ChildrenW { c with log := b } p) = obsConn (mockConn.ChildrenW c p) ∧
    (mockConn.ChildrenW c p).1.operations = c.operations := by
  refine ⟨?_, ?_⟩ <;> (unfold mockConn.ChildrenW; try dsimp only) <;> (repeat' split) <;> rfl

theorem GetACL_obs (c : mockConn) (b : Bool) (p : String) :
    obsConn (mockConn.GetACL { c with log := b } p) = obsConn (mockConn.GetACL c p) ∧
    (mockConn.GetACL c p).1.operations = c.operations := by
  refine ⟨?_, ?_⟩ <;> (unfold mockConn.GetACL; try dsimp only) <;> (repeat' split) <;> rfl

theorem SetACL_obs (c : mockConn) (b : Bool) (p : String) (a : List ACL) (v : Int) :
    obsConn (mockConn.SetACL { c with log := b } p a v) = obsConn (mockConn.SetACL c p a v) ∧
    (mockConn.SetACL c p a v).1.operations = c.operations := by
  refine ⟨?_, ?_⟩ <;> (unfold mockConn.SetACL; try dsimp only) <;> (repeat' split) <;> rfl

theorem Multi_obs (c : mockConn) (b : Bool) (ops : List Nat) :
    obsConn (mockConn.Multi { c with log := b } ops) = obsConn (mockConn.Multi c ops) ∧
    (mockConn.Multi c ops).1.operations = c.operations ++ ops := by
  refine ⟨?_, ?_⟩ <;> (unfold mockConn.Multi; try dsimp only) <;> (repeat' split) <;> rfl

theorem Sync_obs (c : mockConn) (b : Bool) (p : String) :
    obsConn (mockConn.Sync { c with log := b } p) = obsConn (mockConn.Sync c p) ∧
    (mockConn.Sync c p).1.operations = c.operations := by
  refine ⟨?_, ?_⟩ <;> (unfold mockConn.Sync; try dsimp only) <;> (repeat' split) <;> rfl

theorem runMultiBatches_operations (batches : List (List Nat)) (c : mockConn) :
    (runMultiBatches c batches).operations = c.operations ++ batches.flatten := by
  induction batches generalizing c with
  | nil => simp [runMultiBatches]
  | cons ops rest ih =>
    simp only [runMultiBatches, List.foldl_cons, List.flatten_cons] at ih ⊢
    rw [ih, (Multi_obs _ false ops).2, List.append_assoc]

/-- C1: every `Multi` invocation appends all its sub-operations to the
recorded sequence (this happens before the stub table is consulted, so it
holds whether or not a matching expectation is programmed and whatever the
stubbed result is); after any N batches the recorded length is the sum of
the batch sizes; and no connection-double operation ever shortens the
sequence (every non-`Multi` operation leaves it exactly unchanged). -/
theorem C1_multi_recording :
    (∀ (c : mockConn) (ops : List Nat),
      (mockConn.Multi c ops).1.operations = c.operations ++ ops) ∧
    (∀ (c : mockConn) (batches : List (List Nat)),
      (runMultiBatches c batches).operations.length
        = c.operations.length + (batches.map List.length).sum) ∧
    (∀ (c : mockConn) (s : String) (a : List Nat),
      (mockConn.AddAuth c s a).1.operations = c.operations) ∧
    (∀ (c : mockConn), (mockConn.Close c).1.operations = c.operations) ∧
    (∀ (c : mockConn) (p : String) (d : List Nat) (f : Int) (a : List ACL),
      (mockConn.Create c p d f a).1.operations = c.operations) ∧
    (∀ (c : mockConn) (p : String),
      (mockConn.Exists c p).1.operations = c.operations) ∧
    (∀ (c : mockConn) (p : String),
      (mockConn.ExistsW c p).1.operations = c.operations) ∧
    (∀ (c : mockConn) (p : String) (v : Int),
      (mockConn.Delete c p v).1.operations = c.operations) ∧
    (∀ (c : mockConn) (p : String),
      (mockConn.Get c p).1.operations = c.operations) ∧
    (∀ (c : mockConn) (p : String),
      (mockConn.GetW c p).1.operations = c.operations) ∧
    (∀ (c : mockConn) (p : String) (d : List Nat) (v : Int),
      (mockConn.Set c p d v).1.operations = c.operations) ∧
    (∀ (c : mockConn) (p : String),
      (mockConn.Children c p).1.operations = c.operations) ∧
    (∀ (c : mockConn) (p : String),
      (mockConn.ChildrenW c p).1.operations = c.operations) ∧
    (∀ (c : mockConn) (p : String),
      (mockConn.GetACL c p).1.operations = c.operations) ∧
    (∀ (c : mockConn) (p : String) (a : List ACL) (v : Int),
      (mockConn.SetACL c p a v).1.operations = c.operations) ∧
    (∀ (c : mockConn) (p : String),
      (mockConn.Sync c p).1.operations = c.operations) := by
  refine ⟨fun c ops => (Multi_obs c false ops).2,
    fun c batches => ?_,
    fun c s a => (AddAuth_obs c false s a).2,
    fun c => (Close_obs c false).2,
    fun c p d f a => (Create_obs c false p d f a).2,
    fun c p => (Exists_obs c false p).2,
    fun c p => (ExistsW_obs c false p).2,
    fun c p v => (Delete_obs c false p v).2,
    fun c p => (Get_obs c false p).2,
    fun c p => (GetW_obs c false p).2,
    fun c p d v => (Set_obs c false p d v).2,
    fun c p => (Children_obs c false p).2,
    fun c p => (ChildrenW_obs c false p).2,
    fun c p => (GetACL_obs c false p).2,
    fun c p a v => (SetACL_obs c false p a v).2,
    fun c p => (Sync_obs c false p).2⟩
  rw [runMultiBatches_operations]
  simp

/-- C6: the single dial expectation is programmed with exactly three
argument values — the connect string produced by the configuration's
address resolver, the fixed default timeout constant, and the
configuration's read-only flag — exactly once; a dial invocation with any
other argument triple finds no matching expectation, which is a hard test
failure. -/
theorem C6_dial_expectation (a : List MVal) (h : a ≠ dialCallArgs) :
    dialExpectation.args
      = [MVal.str (newMockClientBuilder.ensembleProvider.ConnectionString),
         MVal.dur DEFAULT_CONNECTION_TIMEOUT,
         MVal.boolV newMockClientBuilder.canBeReadOnly] ∧
    dialExpectation.repeatability = 1 ∧
    methodCalled [dialExpectation] ("Dial") a = none := by
  refine ⟨rfl, rfl, ?_⟩
  simp only [methodCalled]
  rw [if_neg]
  · rfl
  · rintro ⟨-, h2, -⟩
    exact h h2.symm

theorem C6_dial_expectation_witness :
    dialExpectation.args
      = [MVal.str (newMockClientBuilder.ensembleProvider.ConnectionString),
         MVal.dur DEFAULT_CONNECTION_TIMEOUT,
         MVal.boolV newMockClientBuilder.canBeReadOnly] ∧
    dialExpectation.repeatability = 1 ∧
    methodCalled [dialExpectation] ("Dial") [] = none :=
  C6_dial_expectation [] (by decide)

/-- C7: an invocation matches a programmed expectation exactly when the
operation name and the argument list agree structurally (and the
expectation is not exhausted); a matched invocation hands back exactly the
canned return values; and a `Get` programmed to return certain data, a
stat with version 1 and a nil error yields exactly that triple to the
caller. -/
theorem C7_programmed_results (e : ExpectedCall) (nm : String) (a : List MVal)
    (c : mockConn) (p : String) (data : List Nat) (st : Stat)
    (hc : c.mock = [{ method := "Get", args := [MVal.str p],
                      rets := [MVal.bytes data, MVal.statV st, MVal.null],
                      repeatability := 1, totalCalls := 0 }]) :
    ((methodCalled [e] nm a).isSome
        ↔ e.method = nm ∧ e.args = a ∧ e.repeatability > -1) ∧
    (∀ r, methodCalled [e] nm a = some r → r.1 = e.rets) ∧
    (mockConn.Get c p).2.1 = some (data, some st, none) := by
  have hunf : methodCalled [e] nm a
      = if e.method = nm ∧ e.args = a ∧ e.repeatability > -1
        then some (e.rets, [consume e]) else none := by
    simp only [methodCalled]
    split
    · rfl
    · rfl
  refine ⟨?_, ?_, ?_⟩
  · rw [hunf]
    split
    next hcond => simp [hcond]
    next hcond => simp [hcond]
  · intro r hr
    rw [hunf] at hr
    split at hr
    · cases Option.some_inj.mp hr
      rfl
    · cases hr
  · obtain ⟨m, ops, lg⟩ := c
    simp only at hc
    subst hc
    simp [mockConn.Get, methodCalled, argGet, argError, asBytes, asStat, consume, List.get?]

theorem C7_programmed_results_witness :
    (mockConn.Get
        { mock := [{ method := "Get", args := [MVal.str ("/a")],
                     rets := [MVal.bytes [118], MVal.statV { version := 1 }, MVal.null],
                     repeatability := 1, totalCalls := 0 }],
          operations := [], log := false } ("/a")).2.1
      = some ([118], some { version := 1 }, none) :=
  (C7_programmed_results dialExpectation ("Dial") dialCallArgs
    { mock := [{ method := "Get", args := [MVal.str ("/a")],
                 rets := [MVal.bytes [118], MVal.statV { version := 1 }, MVal.null],
                 repeatability := 1, totalCalls := 0 }],
      operations := [], log := false } ("/a") [118] { version := 1 } rfl).2.2

/-- C9: the resolution switch accepts the compression double only by its
concrete pointer type; a parameter of the abstract compression-provider
interface type matches no case and is reported as an unknown argument type
without the callback being invoked; the dialer interface label repeated in
the compression case is shadowed by the preceding dialer case, so no type
other than the concrete compression pointer ever injects the compression
double; connection and dialer doubles resolve by both concrete and
abstract identity. -/
theorem C9_compression_resolution :
    resolveArgType GoType.compressIface = none ∧
    HEvent.errorUnknownType (unknownArgMsg GoType.compressIface)
        ∈ (runTest [GoType.compressIface]).trace ∧
    HEvent.callbackInvoked ∉ (runTest [GoType.compressIface]).trace ∧
    resolveArgType GoType.mockCompressPtr = some InjectedArg.compressArg ∧
    resolveArgType GoType.dialerIface = some InjectedArg.dialerArg ∧
    resolveArgType GoType.connIface = some InjectedArg.connArg ∧
    resolveArgType GoType.mockConnPtr = some InjectedArg.connArg ∧
    resolveArgType GoType.mockDialerPtr = some InjectedArg.dialerArg ∧
    (∀ t : GoType, t ≠ GoType.mockCompressPtr
        → resolveArgType t ≠ some InjectedArg.compressArg) := by
  refine ⟨by decide, by decide, by decide, by decide, by decide, by decide,
    by decide, by decide, ?_⟩
  intro t hne h
  cases t with
  | other s => exact Option.noConfusion h
  | mockCompressPtr => exact hne rfl
  | builderPtr => exact absurd h (by decide)
  | frameworkIface => exact absurd h (by decide)
  | connIface => exact absurd h (by decide)
  | mockConnPtr => exact absurd h (by decide)
  | dialerIface => exact absurd h (by decide)
  | mockDialerPtr => exact absurd h (by decide)
  | compressIface => exact absurd h (by decide)
  | eventsChan => exact absurd h (by decide)
  | wgPtr => exact absurd h (by decide)

theorem C9_compression_resolution_witness :
    resolveArgType GoType.dialerIface ≠ some InjectedArg.compressArg :=
  C9_compression_resolution.2.2.2.2.2.2.2.2 GoType.dialerIface (by decide)

/-- C10: the ACL-provider double extracts its programmed return value with
an unchecked type assertion, so a programmed value that is not an ACL list
makes the call panic (modelled as `none`) on both of its operations; every
other double extracts reference-typed results with checked assertions and,
on the same kind of mistyped programmed value, returns the nil/zero result
normally — shown here for each double that performs such an assertion
(connection, dialer, compression provider, ensure-path). -/
theorem C10_acl_unchecked (v w u x : MVal) (p : String)
    (hv : isAclsVal v = false) (hw : isConnVal w = false)
    (hu : isBytesVal u = false) (hx : isEnsureVal x = false) :
    (mockACLProvider.GetDefaultAcl
        { mock := [{ method := "GetDefaultAcl", args := [], rets := [v],
                     repeatability := 1, totalCalls := 0 }] }).2 = none ∧
    (mockACLProvider.GetAclForPath
        { mock := [{ method := "GetAclForPath", args := [MVal.str p], rets := [v],
                     repeatability := 1, totalCalls := 0 }] } p).2 = none ∧
    (mockConn.GetACL
        { mock := [{ method := "GetACL", args := [MVal.str p],
                     rets := [v, MVal.null, MVal.null],
                     repeatability := 1, totalCalls := 0 }],
          operations := [], log := false } p).2.1 = some ([], none, none) ∧
    (mockZookeeperDialer.Dial
        { mock := [{ method := "Dial",
                     args := [MVal.str p, MVal.dur 0, MVal.boolV false],
                     rets := [w, MVal.null, MVal.null],
                     repeatability := 1, totalCalls := 0 }],
          log := false } p 0 false).2.1 = some (false, false, none) ∧
    (mockCompressionProvider.Compress
        { mock := [{ method := "Compress", args := [MVal.str p, MVal.bytes []],
                     rets := [u, MVal.null],
                     repeatability := 1, totalCalls := 0 }],
          log := false } p []).2.1 = some ([], none) ∧
    (mockEnsurePath.ExcludingLast
        { mock := [{ method := "ExcludingLast", args := [], rets := [x],
                     repeatability := 1, totalCalls := 0 }],
          log := false }).2.1 = some false := by
  refine ⟨?_, ?_, ?_, ?_, ?_, ?_⟩
  · cases v <;>
      simp [isAclsVal, mockACLProvider.GetDefaultAcl, methodCalled, argGet,
        List.get?, consume] at hv ⊢
  · cases v <;>
      simp [isAclsVal, mockACLProvider.GetAclForPath, methodCalled, argGet,
        List.get?, consume] at hv ⊢
  · cases v <;>
      simp [isAclsVal, mockConn.GetACL, methodCalled, argGet, argError, asAcls,
        asStat, List.get?, consume] at hv ⊢
  · cases w <;>
      simp [isConnVal, mockZookeeperDialer.Dial, methodCalled, argGet, argError,
        asConn, asChan, List.get?, consume] at hw ⊢
  · cases u <;>
      simp [isBytesVal, mockCompressionProvider.Compress, methodCalled, argGet,
        argError, asBytes, List.get?, consume] at hu ⊢
  · cases x <;>
      simp [isEnsureVal, mockEnsurePath.ExcludingLast, methodCalled, argGet,
        asEnsure, List.get?, consume] at hx ⊢

theorem C10_acl_unchecked_witness :
    (mockACLProvider.GetDefaultAcl
        { mock := [{ method := "GetDefaultAcl", args := [], rets := [MVal.null],
                     repeatability := 1, totalCalls := 0 }] }).2 = none ∧
    (mockConn.GetACL
        { mock := [{ method := "GetACL", args := [MVal.str ("/x")],
                     rets := [MVal.null, MVal.null, MVal.null],
                     repeatability := 1, totalCalls := 0 }],
          operations := [], log := false } ("/x")).2.1 = some ([], none, none) := by
  have h := C10_acl_unchecked MVal.null MVal.null MVal.null MVal.null ("/x") rfl rfl rfl rfl
  exact ⟨h.1, h.2.2.1⟩

/-- C8: for every connection-double operation and every argument list, the
resulting expectation table, recorded-operation sequence and returned
values are identical whether or not the diagnostic log hook is set; the
hook only gates the emitted trace lines. -/
theorem C8_tracing_no_effect :
    (∀ (c : mockConn) (b₁ b₂ : Bool) (s : String) (a : List Nat),
      obsConn (mockConn.AddAuth { c with log := b₁ } s a)
        = obsConn (mockConn.AddAuth { c with log := b₂ } s a)) ∧
    (∀ (c : mockConn) (b₁ b₂ : Bool),
      obsConn (mockConn.Close { c with log := b₁ })
        = obsConn (mockConn.Close { c with log := b₂ })) ∧
    (∀ (c : mockConn) (b₁ b₂ : Bool) (p : String) (d : List Nat) (f : Int) (a : List ACL),
      obsConn (mockConn.Create { c with log := b₁ } p d f a)
        = obsConn (mockConn.Create { c with log := b₂ } p d f a)) ∧
    (∀ (c : mockConn) (b₁ b₂ : Bool) (p : String),
      obsConn (mockConn.Exists { c with log := b₁ } p)
        = obsConn (mockConn.Exists { c with log := b₂ } p)) ∧
    (∀ (c : mockConn) (b₁ b₂ : Bool) (p : String),
      obsConn (mockConn.ExistsW { c with log := b₁ } p)
        = obsConn (mockConn.ExistsW { c with log := b₂ } p)) ∧
    (∀ (c : mockConn) (b₁ b₂ : Bool) (p : String) (v : Int),
      obsConn (mockConn.Delete { c with log := b₁ } p v)
        = obsConn (mockConn.Delete { c with log := b₂ } p v)) ∧
    (∀ (c : mockConn) (b₁ b₂ : Bool) (p : String),
      obsConn (mockConn.Get { c with log := b₁ } p)
        = obsConn (mockConn.Get { c with log := b₂ } p)) ∧
    (∀ (c : mockConn) (b₁ b₂ : Bool) (p : String),
      obsConn (mockConn.GetW { c with log := b₁ } p)
        = obsConn (mockConn.GetW { c with log := b₂ } p)) ∧
    (∀ (c : mockConn) (b₁ b₂ : Bool) (p : String) (d : List Nat) (v : Int),
      obsConn (mockConn.Set { c with log := b₁ } p d v)
        = obsConn (mockConn.Set { c with log := b₂ } p d v)) ∧
    (∀ (c : mockConn) (b₁ b₂ : Bool) (p : String),
      obsConn (mockConn.Children { c with log := b₁ } p)
        = obsConn (mockConn.Children { c with log := b₂ } p)) ∧
    (∀ (c : mockConn) (b₁ b₂ : Bool) (p : String),
      obsConn (mockConn.ChildrenW { c with log := b₁ } p)
        = obsConn (mockConn.ChildrenW { c with log := b₂ } p)) ∧
    (∀ (c : mockConn) (b₁ b₂ : Bool) (p : String),
      obsConn (mockConn.GetACL { c with log := b₁ } p)
        = obsConn (mockConn.GetACL { c with log := b₂ } p)) ∧
    (∀ (c : mockConn) (b₁ b₂ : Bool) (p : String) (a : List ACL) (v : Int),
      obsConn (mockConn.SetACL { c with log := b₁ } p a v)
        = obsConn (mockConn.SetACL { c with log := b₂ } p a v)) ∧
    (∀ (c : mockConn) (b₁ b₂ : Bool) (ops : List Nat),
      obsConn (mockConn.Multi { c with log := b₁ } ops)
        = obsConn (mockConn.Multi { c with log := b₂ } ops)) ∧
    (∀ (c : mockConn) (b₁ b₂ : Bool) (p : String),
      obsConn (mockConn.Sync { c with log := b₁ } p)
        = obsConn (mockConn.Sync { c with log := b₂ } p)) :=
  ⟨fun c b₁ b₂ s a => ((AddAuth_obs c b₁ s a).1).trans ((AddAuth_obs c b₂ s a).1).symm,
   fun c b₁ b₂ => ((Close_obs c b₁).1).trans ((Close_obs c b₂).1).symm,
   fun c b₁ b₂ p d f a => ((Create_obs c b₁ p d f a).1).trans ((Create_obs c b₂ p d f a).1).symm,
   fun c b₁ b₂ p => ((Exists_obs c b₁ p).1).trans ((Exists_obs c b₂ p).1).symm,
   fun c b₁ b₂ p => ((ExistsW_obs c b₁ p).1).trans ((ExistsW_obs c b₂ p).1).symm,
   fun c b₁ b₂ p v => ((Delete_obs c b₁ p v).1).trans ((Delete_obs c b₂ p v).1).symm,
   fun c b₁ b₂ p => ((Get_obs c b₁ p).1).trans ((Get_obs c b₂ p).1).symm,
   fun c b₁ b₂ p => ((GetW_obs c b₁ p).1).trans ((GetW_obs c b₂ p).1).symm,
   fun c b₁ b₂ p d v => ((Set_obs c b₁ p d v).1).trans ((Set_obs c b₂ p d v).1).symm,
   fun c b₁ b₂ p => ((Children_obs c b₁ p).1).trans ((Children_obs c b₂ p).1).symm,
   fun c b₁ b₂ p => ((ChildrenW_obs c b₁ p).1).trans ((ChildrenW_obs c b₂ p).1).symm,
   fun c b₁ b₂ p => ((GetACL_obs c b₁ p).1).trans ((GetACL_obs c b₂ p).1).symm,
   fun c b₁ b₂ p a v => ((SetACL_obs c b₁ p a v).1).trans ((SetACL_obs c b₂ p a v).1).symm,
   fun c b₁ b₂ ops => ((Multi_obs c b₁ ops).1).trans ((Multi_obs c b₂ ops).1).symm,
   fun c b₁ b₂ p => ((Sync_obs c b₁ p).1).trans ((Sync_obs c b₂ p).1).symm⟩

/-- C2 counterexample: the claim quantifies over runs with any callback,
but a run whose callback declares an unrecognized parameter type aborts in
the reflective call before the close expectation is programmed: no close
occurs and the event channel is never closed, so the closed-exactly-once
part of the claim fails on that run. -/
theorem C2_counterexample :
    HEvent.connCloseCall ∉ (runTest [GoType.other ("int")]).trace ∧
    (runTest [GoType.other ("int")]).trace.count HEvent.closeEvents = 0 ∧
    (runTest [GoType.other ("int")]).eventsClosed = false ∧
    (runTest [GoType.other ("int")]).completed = false := by decide

/-- C2 (amended): for every harness run whose callback parameters all
resolve (so the callback is invoked and the run completes), exactly one
dial expectation is programmed and consumed, exactly one close expectation
is programmed and consumed, the dial strictly precedes the close, and the
event channel is closed exactly once, strictly after the client close
completes. -/
theorem C2_harness_lifecycle (params : List GoType)
    (h : callbackIsInvoked params = true) :
    (runTest params).trace.count HEvent.programDial = 1 ∧
    (runTest params).trace.count HEvent.dialCall = 1 ∧
    allSatisfied (runTest params).dialer = true ∧
    (runTest params).trace.count HEvent.programClose = 1 ∧
    (runTest params).trace.count HEvent.connCloseCall = 1 ∧
    allSatisfied (runTest params).conn.mock = true ∧
    eventBeforeB (runTest params).trace HEvent.dialCall HEvent.connCloseCall = true ∧
    (runTest params).trace.count HEvent.closeEvents = 1 ∧
    eventBeforeB (runTest params).trace HEvent.clientCloseDone HEvent.closeEvents = true ∧
    (runTest params).eventsClosed = true := by
  have hpd := count_resolveEvents_of_ne params HEvent.programDial (by decide) (fun s hh => by cases hh)
  have hdc := count_resolveEvents_of_ne params HEvent.dialCall (by decide) (fun s hh => by cases hh)
  have hpc := count_resolveEvents_of_ne params HEvent.programClose (by decide) (fun s hh => by cases hh)
  have hcc := count_resolveEvents_of_ne params HEvent.connCloseCall (by decide) (fun s hh => by cases hh)
  have hce := count_resolveEvents_of_ne params HEvent.closeEvents (by decide) (fun s hh => by cases hh)
  refine ⟨?_, ?_, ?_, ?_, ?_, ?_, ?_, ?_, ?_, ?_⟩
  · rw [runTest_trace]
    simp only [h, if_true]
    cases hw : waitingFlag params <;> simp only [hw, List.count_append, hpd] <;> decide
  · rw [runTest_trace]
    simp only [h, if_true]
    cases hw : waitingFlag params <;> simp only [hw, List.count_append, hdc] <;> decide
  · rw [runTest_eq]
    simp only [h, if_true]
    decide
  · rw [runTest_trace]
    simp only [h, if_true]
    cases hw : waitingFlag params <;> simp only [hw, List.count_append, hpc] <;> decide
  · rw [runTest_trace]
    simp only [h, if_true]
    cases hw : waitingFlag params <;> simp only [hw, List.count_append, hcc] <;> decide
  · rw [runTest_eq]
    simp only [h, if_true]
    decide
  · have hsplit : (runTest params).trace
        = preTrace ++ (resolveEvents params ++ ([HEvent.callbackInvoked]
            ++ ((if waitingFlag params then [HEvent.wgWait] else []) ++ postTrace))) := by
      rw [runTest_trace]
      simp [h, List.append_assoc]
    rw [hsplit]
    apply eventBeforeB_split
    · intro hmem
      rcases List.mem_append.mp hmem with hh | hh
      · exact not_mem_resolveEvents (by decide) (fun s hh2 => by cases hh2) hh
      · rcases List.mem_append.mp hh with hh | hh
        · simp at hh
        · rcases List.mem_append.mp hh with hh | hh
          · cases mem_wgOptList hh
          · exact absurd hh (by decide)
    · decide
  · rw [runTest_trace]
    simp only [h, if_true]
    cases hw : waitingFlag params <;> simp only [hw, List.count_append, hce] <;> decide
  · have hsplit : (runTest params).trace
        = (preTrace ++ (resolveEvents params ++ ([HEvent.callbackInvoked]
            ++ ((if waitingFlag params then [HEvent.wgWait] else [])
              ++ [HEvent.programClose, HEvent.connCloseCall, HEvent.clientCloseDone]))))
          ++ [HEvent.closeEvents, HEvent.assertExpectations] := by
      rw [runTest_trace]
      simp [h, postTrace, List.append_assoc]
    rw [hsplit]
    apply eventBeforeB_split
    · decide
    · intro hmem
      rcases List.mem_append.mp hmem with hh | hh
      · exact absurd hh (by decide)
      · rcases List.mem_append.mp hh with hh | hh
        · exact not_mem_resolveEvents (by decide) (fun s hh2 => by cases hh2) hh
        · rcases List.mem_append.mp hh with hh | hh
          · simp at hh
          · rcases List.mem_append.mp hh with hh | hh
            · cases mem_wgOptList hh
            · exact absurd hh (by decide)
  · rw [runTest_eq]
    simp only [h, if_true]

theorem C2_harness_lifecycle_witness :
    (runTest []).trace.count HEvent.dialCall = 1 ∧
    (runTest []).trace.count HEvent.connCloseCall = 1 ∧
    allSatisfied (runTest []).dialer = true ∧
    (runTest []).eventsClosed = true := by
  have hh := C2_harness_lifecycle [] rfl
  exact ⟨hh.2.1, hh.2.2.2.2.1, hh.2.2.1, hh.2.2.2.2.2.2.2.2.2⟩

/-- C3: when the callback declares any parameter of a type outside the
recognized set, the harness reports the unknown-argument failure naming
the offending type during resolution, and the callback body is never
invoked (the reflective call aborts on the unassigned slot). -/
theorem C3_unknown_param (params : List GoType) (t : GoType)
    (ht : t ∈ params) (hu : resolveArgType t = none) :
    HEvent.errorUnknownType (unknownArgMsg t) ∈ (runTest params).trace ∧
    HEvent.callbackInvoked ∉ (runTest params).trace := by
  have hfalse : callbackIsInvoked params = false := by
    cases hall : callbackIsInvoked params with
    | false => rfl
    | true =>
      rw [callbackIsInvoked, List.all_eq_true] at hall
      have h2 := hall t ht
      rw [hu] at h2
      exact absurd h2 (by decide)
  rw [runTest_trace, hfalse]
  constructor
  · simp only [Bool.false_eq_true, if_false]
    refine List.mem_append.mpr (Or.inl (List.mem_append.mpr (Or.inr ?_)))
    rw [resolveEvents, List.mem_filterMap]
    refine ⟨t, ht, ?_⟩
    rw [hu]
  · intro hmem
    simp only [Bool.false_eq_true, if_false] at hmem
    rcases List.mem_append.mp hmem with hmem | hmem
    · rcases List.mem_append.mp hmem with hmem | hmem
      · exact absurd hmem (by decide)
      · exact not_mem_resolveEvents (by decide) (fun s h => by cases h) hmem
    · simp at hmem

theorem C3_unknown_param_witness :
    HEvent.errorUnknownType (unknownArgMsg (GoType.other ("int")))
        ∈ (runTest [GoType.other ("int")]).trace ∧
    HEvent.callbackInvoked ∉ (runTest [GoType.other ("int")]).trace :=
  C3_unknown_param [GoType.other ("int")] (GoType.other ("int")) (by decide) rfl

/-- C4 counterexample: a callback declaring two completion-signal-handle
parameters is a run with such a parameter in which the orchestrator
registers two pending units, not exactly one — the loop registers one unit
per parameter. -/
theorem C4_counterexample :
    GoType.wgPtr ∈ [GoType.wgPtr, GoType.wgPtr] ∧
    (runTest [GoType.wgPtr, GoType.wgPtr]).trace.count HEvent.wgAdd = 2 := by decide

/-- C4 (amended): in every run whose callback is invoked, the orchestrator
registers one pending wait-group unit per completion-signal-handle
parameter (hence exactly one when exactly one such parameter is declared),
each registration happening before the callback invocation; when at least
one such parameter is declared it blocks on the wait group exactly once
after the callback returns and before the close expectation is programmed;
with no such parameter, no wait occurs. -/
theorem C4_wait_group (params : List GoType)
    (h : callbackIsInvoked params = true) :
    (runTest params).trace.count HEvent.wgAdd = wgAddCount params ∧
    eventBeforeB (runTest params).trace HEvent.wgAdd HEvent.callbackInvoked = true ∧
    (waitingFlag params = true →
      (runTest params).trace.count HEvent.wgWait = 1 ∧
      eventBeforeB (runTest params).trace HEvent.callbackInvoked HEvent.wgWait = true ∧
      eventBeforeB (runTest params).trace HEvent.wgWait HEvent.programClose = true) ∧
    (waitingFlag params = false → HEvent.wgWait ∉ (runTest params).trace) ∧
    (waitingFlag params = true ↔ 0 < wgAddCount params) := by
  have hww := count_resolveEvents_of_ne params HEvent.wgWait (by decide) (fun s hh => by cases hh)
  refine ⟨?_, ?_, ?_, ?_, ?_⟩
  · rw [runTest_trace]
    simp only [h, if_true]
    cases hw : waitingFlag params <;>
      simp [hw, List.count_append, count_wgAdd_resolveEvents, preTrace, postTrace]
  · have hsplit : (runTest params).trace
        = (preTrace ++ resolveEvents params) ++ ([HEvent.callbackInvoked]
            ++ ((if waitingFlag params then [HEvent.wgWait] else []) ++ postTrace)) := by
      rw [runTest_trace]
      simp [h, List.append_assoc]
    rw [hsplit]
    apply eventBeforeB_split
    · intro hmem
      rcases List.mem_append.mp hmem with hh | hh
      · simp at hh
      · rcases List.mem_append.mp hh with hh | hh
        · cases mem_wgOptList hh
        · exact absurd hh (by decide)
    · intro hmem
      rcases List.mem_append.mp hmem with hh | hh
      · exact absurd hh (by decide)
      · exact not_mem_resolveEvents (by decide) (fun s hh2 => by cases hh2) hh
  · intro hw
    refine ⟨?_, ?_, ?_⟩
    · rw [runTest_trace]
      simp only [h, if_true, hw, List.count_append, hww]
      decide
    · have hsplit : (runTest params).trace
          = (preTrace ++ (resolveEvents params ++ [HEvent.callbackInvoked]))
            ++ ([HEvent.wgWait] ++ postTrace) := by
        rw [runTest_trace]
        simp [h, hw, List.append_assoc]
      rw [hsplit]
      apply eventBeforeB_split
      · decide
      · intro hmem
        rcases List.mem_append.mp hmem with hh | hh
        · exact absurd hh (by decide)
        · rcases List.mem_append.mp hh with hh | hh
          · exact not_mem_resolveEvents (by decide) (fun s hh2 => by cases hh2) hh
          · simp at hh
    · have hsplit : (runTest params).trace
          = (preTrace ++ (resolveEvents params
              ++ ([HEvent.callbackInvoked] ++ [HEvent.wgWait]))) ++ postTrace := by
        rw [runTest_trace]
        simp [h, hw, List.append_assoc]
      rw [hsplit]
      apply eventBeforeB_split
      · decide
      · intro hmem
        rcases List.mem_append.mp hmem with hh | hh
        · exact absurd hh (by decide)
        · rcases List.mem_append.mp hh with hh | hh
          · exact not_mem_resolveEvents (by decide) (fun s hh2 => by cases hh2) hh
          · simp at hh
  · intro hw hmem
    rw [runTest_trace] at hmem
    simp only [h, if_true, hw, Bool.false_eq_true, if_false, List.nil_append] at hmem
    rcases List.mem_append.mp hmem with hh | hh
    · rcases List.mem_append.mp hh with hh | hh
      · exact absurd hh (by decide)
      · exact not_mem_resolveEvents (by decide) (fun s hh2 => by cases hh2) hh
    · rcases List.mem_append.mp hh with hh | hh
      · simp at hh
      · exact absurd hh (by decide)
  · rw [waitingFlag, wgAddCount, List.any_eq_true, List.countP_pos_iff]

theorem C4_wait_group_witness :
    (runTest [GoType.wgPtr]).trace.count HEvent.wgAdd = wgAddCount [GoType.wgPtr] ∧
    (runTest [GoType.wgPtr]).trace.count HEvent.wgWait = 1 := by
  have hh := C4_wait_group [GoType.wgPtr] rfl
  exact ⟨hh.1, (hh.2.2.1 rfl).1⟩

/-- C5 counterexample: in an actual run the client is built first and the
dial expectation is programmed afterwards — both events occur, in the
order opposite to the claimed one. -/
theorem C5_counterexample :
    HEvent.buildClient ∈ (runTest []).trace ∧
    HEvent.programDial ∈ (runTest []).trace ∧
    eventBeforeB (runTest []).trace HEvent.programDial HEvent.buildClient = false := by
  decide

/-- C5 (amended): in every harness run the client is built first, then the
single dial expectation is programmed, and only then does the start of the
client dial: building emits no dial (the single dial event strictly follows
the programming of the expectation, and the first two trace events are
exactly build-then-program). -/
theorem C5_build_then_program (params : List GoType) :
    (runTest params).trace.count HEvent.buildClient = 1 ∧
    (runTest params).trace.count HEvent.programDial = 1 ∧
    (runTest params).trace.count HEvent.dialCall = 1 ∧
    (runTest params).trace.take 2 = [HEvent.buildClient, HEvent.programDial] ∧
    eventBeforeB (runTest params).trace HEvent.buildClient HEvent.programDial = true ∧
    eventBeforeB (runTest params).trace HEvent.programDial HEvent.dialCall = true := by
  have h1 := count_resolveEvents_of_ne params HEvent.buildClient (by decide) (fun s h => by cases h)
  have h2 := count_resolveEvents_of_ne params HEvent.programDial (by decide) (fun s h => by cases h)
  have h3 := count_resolveEvents_of_ne params HEvent.dialCall (by decide) (fun s h => by cases h)
  refine ⟨?_, ?_, ?_, ?_, ?_, ?_⟩
  · rw [runTest_trace]
    cases hc : callbackIsInvoked params <;> cases hw : waitingFlag params <;>
      simp only [hc, hw, List.count_append, h1] <;> decide
  · rw [runTest_trace]
    cases hc : callbackIsInvoked params <;> cases hw : waitingFlag params <;>
      simp only [hc, hw, List.count_append, h2] <;> decide
  · rw [runTest_trace]
    cases hc : callbackIsInvoked params <;> cases hw : waitingFlag params <;>
      simp only [hc, hw, List.count_append, h3] <;> decide
  · rw [runTest_trace]
    simp [preTrace]
  · have hsplit : (runTest params).trace
        = [HEvent.buildClient] ++ ([HEvent.programDial, HEvent.dialCall]
            ++ (resolveEvents params
              ++ (if callbackIsInvoked params then
                    [HEvent.callbackInvoked]
                      ++ (if waitingFlag params then [HEvent.wgWait] else []) ++ postTrace
                  else [HEvent.callbackPanic]))) := by
      rw [runTest_trace]
      simp [preTrace, List.append_assoc]
    rw [hsplit]
    apply eventBeforeB_split
    · intro hmem
      rcases List.mem_append.mp hmem with h | h
      · simp at h
      · rcases List.mem_append.mp h with h | h
        · exact not_mem_resolveEvents (by decide) (fun s hh => by cases hh) h
        · rcases mem_branchList h with h | h | h | h
          · cases h
          · cases h
          · exact absurd h (by decide)
          · cases h
    · decide
  · have hsplit : (runTest params).trace
        = [HEvent.buildClient, HEvent.programDial] ++ ([HEvent.dialCall]
            ++ (resolveEvents params
              ++ (if callbackIsInvoked params then
                    [HEvent.callbackInvoked]
                      ++ (if waitingFlag params then [HEvent.wgWait] else []) ++ postTrace
                  else [HEvent.callbackPanic]))) := by
      rw [runTest_trace]
      simp [preTrace, List.append_assoc]
    rw [hsplit]
    apply eventBeforeB_split
    · intro hmem
      rcases List.mem_append.mp hmem with h | h
      · simp at h
      · rcases List.mem_append.mp h with h | h
        · exact not_mem_resolveEvents (by decide) (fun s hh => by cases hh) h
        · rcases mem_branchList h with h | h | h | h
          · cases h
          · cases h
          · exact absurd h (by decide)
          · cases h
    · decide

end CuratorSpec
